import Mathlib

/-!
Shallow embedding of the SandboxBridge browser-extension bridge:
the cookie-based command channel of content.js and the sandbox bridge of
sandbox-bridge.js, with the host environment (DOM, JSON codec, message
transport) passed in explicitly as function-valued parameters.
-/

/-- JavaScript primitive values as they travel through the bridge. -/
inductive JsValue where
  | undefined
  | jsNull
  | jsBool (b : Bool)
  | num (n : Int)
  | str (s : String)
deriving Repr, DecidableEq

/-- JavaScript truthiness for the modelled values, as used by
`sandboxResult || { success: true }` in content.js. -/
def jsTruthy : JsValue → Bool
  | .undefined => false
  | .jsNull => false
  | .jsBool b => b
  | .num n => n != 0
  | .str s => s != ""

/-- A thrown JavaScript error, with the `message` and `stack` fields read by
the catch blocks of executeCommand. -/
structure JsErr where
  message : String
  stack : String
deriving Repr, DecidableEq

/-- A DOM element as observed by the bridge: the fields content.js and
sandbox-bridge.js actually read, plus its attribute map. -/
structure DomElem where
  textContent : String
  innerHTML : String
  value : String
  tagName : String
  className : String
  id : String
  attributes : List (String × String)
deriving Repr, DecidableEq

/-- `el.getAttribute(name)`: first matching attribute, null (none) if absent. -/
def domGetAttribute (el : DomElem) (name : String) : Option String :=
  (el.attributes.find? (fun p => p.1 == name)).map (fun p => p.2)

/-- The `action` discriminator of a Command, mirroring the switch in
executeCommand of content.js; `other` covers the default branch. -/
inductive CmdAction where
  | click
  | getText
  | getAllText
  | fillInput
  | getAttribute
  | waitForElement
  | custom
  | other (s : String)
deriving Repr, DecidableEq

/-- A parsed Command object `\x7baction, selector?, value?, attribute?, code?,
timeout?\x7d` from the command cookie. -/
structure Command where
  action : CmdAction
  selector : String := ""
  value : String := ""
  attr : String := ""
  code : String := ""
  timeout : Int := 0
deriving Repr, DecidableEq

/-- The Result shapes that executeCommand / checkForCommands write back:
one constructor per object literal in the source, plus `raw` for a sandbox
execution value passed through unchanged. -/
inductive CmdResult where
  | success
  | failure (error : String)
  | text (t : Option String)
  | texts (ts : List String)
  | attrValue (v : Option String)
  | errObj (error : String) (stack : String)
  | unknownAction
  | parseErr (message : String)
  | raw (v : JsValue)
deriving Repr, DecidableEq

/-- Number of iterations of the waitForElement loop
`for (let i = 0; i < cmd.timeout / 100; i++)`: the number of naturals i with
100 * i < timeout, i.e. the ceiling of timeout / 100 for positive timeout and
0 otherwise. -/
def waitAttempts (timeoutMs : Int) : Nat :=
  if timeoutMs ≤ 0 then 0 else (timeoutMs.toNat + 99) / 100

/-- The 100 ms sleep between two waitForElement polls in content.js. -/
def elementPollIntervalMs : Nat := 100

/-- The body of the waitForElement loop: at each remaining attempt, check
presence at the current attempt index and stop with success, else sleep and
retry; when attempts are exhausted, `if (!result)` yields the Timeout result. -/
def waitGo (present : Nat → Bool) : Nat → Nat → CmdResult
  | 0, _ => .failure "Timeout"
  | Nat.succ fuel, i => if present i then .success else waitGo present fuel (i + 1)

/-- The waitForElement handler: run the poll loop from attempt 0 for
`waitAttempts timeoutMs` attempts, where `present i` is whether
`document.querySelector(cmd.selector)` finds the element at attempt i. -/
def waitForElementRun (present : Nat → Bool) (timeoutMs : Int) : CmdResult :=
  waitGo present (waitAttempts timeoutMs) 0

/-- The host environment seen by executeCommand: DOM queries (which may throw,
e.g. on an invalid selector), element presence over time for waitForElement,
and `window._sandboxBridge.execute` which resolves to a value or rejects. -/
structure ContentEnv where
  querySelector : String → Except JsErr (Option DomElem)
  querySelectorAll : String → Except JsErr (List DomElem)
  presentAt : Nat → String → Bool
  bridgeExecute : String → Except JsErr JsValue

/-- The switch statement inside executeCommand's try block. A thrown error
escapes as `.error`; the custom branch has its own inner try/catch. -/
def executeCommandBody (env : ContentEnv) (cmd : Command) : Except JsErr CmdResult :=
  match cmd.action with
  | .click => do
      let _el ← env.querySelector cmd.selector
      pure .success
  | .getText => do
      let el ← env.querySelector cmd.selector
      pure (.text (el.map (fun e => e.textContent)))
  | .getAllText => do
      let els ← env.querySelectorAll cmd.selector
      pure (.texts (els.map (fun e => e.textContent)))
  | .fillInput => do
      let el ← env.querySelector cmd.selector
      pure (match el with
        | some _ => .success
        | none => .failure "Element not found")
  | .getAttribute => do
      let el ← env.querySelector cmd.selector
      pure (.attrValue (el.bind (fun e => domGetAttribute e cmd.attr)))
  | .waitForElement =>
      pure (waitForElementRun (fun i => env.presentAt i cmd.selector) cmd.timeout)
  | .custom =>
      pure (match env.bridgeExecute cmd.code with
        | .ok v => if jsTruthy v then .raw v else .success
        | .error e => .errObj e.message e.stack)
  | .other _ => pure .unknownAction

/-- executeCommand: the body wrapped in the outer try/catch, so every thrown
error becomes the `\x7berror, stack\x7d` Result and the function always returns a
plain Result. -/
def executeCommand (env : ContentEnv) (cmd : Command) : CmdResult :=
  match executeCommandBody env cmd with
  | .ok r => r
  | .error e => .errObj e.message e.stack

/-- The `pw_status` cookie values written by checkForCommands. -/
inductive ChannelStatus where
  | processing
  | done
  | error
deriving Repr, DecidableEq

/-- The cookie-backed channel state: the raw command slot (`pw_cmd`), the
result slot (`pw_result`, kept as a structured Result), and the status slot
(`pw_status`). -/
structure ChannelState where
  cmdSlot : Option String
  resultSlot : Option CmdResult
  statusSlot : Option ChannelStatus
deriving Repr, DecidableEq

/-- The read half of one checkForCommands poll, up to the point where command
execution begins. If the slot is empty, nothing happens. If parsing (decode +
JSON.parse) succeeds, the command slot is cleared and status set to
processing, and the parsed command is handed on. If parsing throws, the catch
block writes the parse-error Result and status error — without touching the
command slot. -/
def checkRead (parse : String → Except String Command) (s : ChannelState) :
    ChannelState × Option Command :=
  match s.cmdSlot with
  | none => (s, none)
  | some enc =>
    match parse enc with
    | .ok cmd =>
        ({ s with cmdSlot := none, statusSlot := some .processing }, some cmd)
    | .error m =>
        ({ s with resultSlot := some (.parseErr m), statusSlot := some .error }, none)

/-- The write half of one poll: run the command, write the Result and set
status done. -/
def checkFinish (exec : Command → CmdResult) (cmd : Command) (s : ChannelState) :
    ChannelState :=
  { s with resultSlot := some (exec cmd), statusSlot := some .done }

/-- One full checkForCommands poll over the channel state. -/
def checkForCommands (parse : String → Except String Command)
    (exec : Command → CmdResult) (s : ChannelState) : ChannelState :=
  match checkRead parse s with
  | (s1, none) => s1
  | (s1, some cmd) => checkFinish exec cmd s1

/-- Brief per-element view used by the DOM_QUERY_ALL handler. -/
structure DomBrief where
  textContent : String
  innerHTML : String
  value : String
  tagName : String
deriving Repr, DecidableEq

/-- Projection used in `elements.map(el => (\x7btextContent, innerHTML, value,
tagName\x7d))` of the DOM_QUERY_ALL handler. -/
def domBriefOf (el : DomElem) : DomBrief :=
  { textContent := el.textContent, innerHTML := el.innerHTML,
    value := el.value, tagName := el.tagName }

/-- The document-level data read by the DOCUMENT_QUERY handler. -/
structure DocModel where
  title : String
  url : String
  domain : String
  pathname : String
  readyState : String
  docElemTagName : String
  docElemClassName : String
  docElemId : String
  bodyClassName : String
  bodyId : String
  bodyInnerHTML : String
  metaDescription : Option String
  metaKeywords : Option String
  metaViewport : Option String
  cookie : String
  scriptCount : Nat
  stylesheetCount : Nat
  iframeCount : Nat
deriving Repr, DecidableEq

/-- The snapshot object the DOCUMENT_QUERY handler posts back; the body markup
is truncated to its first 500 characters by `substring(0, 500)`. -/
structure DocSnapshot where
  title : String
  url : String
  domain : String
  pathname : String
  readyState : String
  docElemTagName : String
  docElemClassName : String
  docElemId : String
  bodyClassName : String
  bodyId : String
  bodyStart : String
  metaDescription : Option String
  metaKeywords : Option String
  metaViewport : Option String
  cookie : String
  scriptCount : Nat
  stylesheetCount : Nat
  iframeCount : Nat
deriving Repr, DecidableEq

/-- Build the DOCUMENT_QUERY snapshot from the live document data. -/
def buildDocSnapshot (d : DocModel) : DocSnapshot :=
  { title := d.title, url := d.url, domain := d.domain, pathname := d.pathname,
    readyState := d.readyState, docElemTagName := d.docElemTagName,
    docElemClassName := d.docElemClassName, docElemId := d.docElemId,
    bodyClassName := d.bodyClassName, bodyId := d.bodyId,
    bodyStart := d.bodyInnerHTML.take 500,
    metaDescription := d.metaDescription, metaKeywords := d.metaKeywords,
    metaViewport := d.metaViewport, cookie := d.cookie,
    scriptCount := d.scriptCount, stylesheetCount := d.stylesheetCount,
    iframeCount := d.iframeCount }

/-- A JavaScript value reachable by CUSTOM_QUERY path traversal from `window`:
null, undefined, an opaque primitive, or an object whose property reads either
yield a value or throw (a getter may throw; a missing property yields
undefined via the lookup function below). -/
inductive PageValue where
  | undefined
  | pvNull
  | prim (s : String)
  | obj (fields : List (String × Except String PageValue))

/-- The `obj === null || obj === undefined` test guarding each traversal step. -/
def isNullOrUndef : PageValue → Bool
  | .undefined => true
  | .pvNull => true
  | _ => false

/-- Property lookup in an object's field list: a missing property reads as
undefined, a present one yields its value or throws its getter's error. -/
def lookupField : List (String × Except String PageValue) → String →
    Except String PageValue
  | [], _ => .ok .undefined
  | (k, v) :: rest, key => if k == key then v else lookupField rest key

/-- `obj[key]`: property access on the modelled values. Reading a property of
null or undefined throws; reading one of a primitive yields undefined. -/
def getProp : PageValue → String → Except String PageValue
  | .obj fields, key => lookupField fields key
  | .prim _, _ => .ok .undefined
  | .pvNull, _ => .error "TypeError: cannot read properties of null"
  | .undefined, _ => .error "TypeError: cannot read properties of undefined"

/-- Accumulator loop of the dot-splitter below. -/
def splitGo : List Char → String → List String
  | [], cur => [cur]
  | c :: rest, cur =>
      if c == '.' then cur :: splitGo rest "" else splitGo rest (cur.push c)

/-- JavaScript `queryPath.split('.')`: splitting on every dot, keeping empty
segments, with the empty string splitting to one empty segment. -/
def splitDots (s : String) : List String := splitGo s.toList ""

/-- Accumulator loop of the digit parser below. -/
def digitsGo : List Char → Nat → Option Nat
  | [], acc => some acc
  | c :: rest, acc =>
      if c.isDigit then digitsGo rest (acc * 10 + (c.toNat - 48)) else none

/-- The regex test plus parseInt of the CUSTOM_QUERY handler: a non-empty
all-digit string is read as the number it denotes in decimal, anything else
fails the /^\d+$/ test. -/
def parseDigits (s : String) : Option Nat :=
  match s.toList with
  | [] => none
  | l => digitsGo l 0

/-- Key canonicalisation of one path segment: a segment matching /^\d+$/ is
read through `parseInt`, so `obj[parseInt(part)]` is the property named by the
canonical decimal form; any other segment is used verbatim. -/
def canonKey (part : String) : String :=
  match parseDigits part with
  | some n => toString n
  | none => part

/-- The CUSTOM_QUERY traversal loop: starting from the root, follow each path
segment, breaking out (keeping the current value) as soon as the current value
is null or undefined; a throwing property read aborts with the error. -/
def resolvePath : PageValue → List String → Except String PageValue
  | v, [] => .ok v
  | v, p :: rest =>
    if isNullOrUndef v then .ok v
    else
      match getProp v (canonKey p) with
      | .error e => .error e
      | .ok v2 => resolvePath v2 rest

/-- The CUSTOM_QUERY handler's result: traverse `queryPath.split('.')` from
`window`; the catch block turns a thrown error into the `\x7berror\x7d` object. -/
def customQueryResult (window : PageValue) (queryPath : String) : PageValue :=
  match resolvePath window (splitDots queryPath) with
  | .ok v => v
  | .error e => .obj [("error", .ok (.prim e))]

/-- The fields of the SandboxBridge instance that the message handlers
mutate: the readiness flag and the pendingExecutions map (kept as the list of
pending correlation IDs; the resolve/reject callbacks are represented by the
Outcome values the handlers deliver). -/
structure BridgeState where
  ready : Bool
  pendingExecutions : List String
deriving Repr, DecidableEq

/-- An inbound `event.data` from the sandbox iframe, one constructor per
`type` tag handled by the listener; `otherMsg` covers unrecognised types. -/
inductive MsgData where
  | sandboxReady
  | domQuery (selector : String) (id : String)
  | domQueryAll (selector : String) (id : String)
  | documentQuery (id : String)
  | customQuery (queryPath : String) (id : String)
  | executionResult (id : String) (result : JsValue)
  | executionError (id : String) (errMessage : String)
  | otherMsg
deriving Repr, DecidableEq

/-- Settlement of an execute() call's promise: `resolved id v` is
`pending.resolve(result)`, `rejected id m` is `pending.reject(new
Error(m))`. -/
inductive Outcome where
  | resolved (id : String) (v : JsValue)
  | rejected (id : String) (msg : String)
deriving Repr, DecidableEq

/-- Payload of a DOM_RESULT message posted back into the iframe. -/
inductive DomPayload where
  | single (r : Option DomElem)
  | many (rs : List DomBrief)
  | docSnap (d : DocSnapshot)
  | pathVal (v : PageValue)

/-- A DOM_RESULT message posted to the iframe, keyed by the request's id. -/
structure OutMsg where
  id : String
  result : DomPayload

/-- The page environment the bridge's message listener reads: the DOM, the
global window object for CUSTOM_QUERY, and the document data. -/
structure BridgeEnv where
  querySelector : String → Option DomElem
  querySelectorAll : String → List DomElem
  window : PageValue
  document : DocModel

/-- The window message listener installed by setupIframe. Windows are
identified by numbers: `iframeWin` is `this.iframe.contentWindow`, `src` is
`event.source`; a message from any other source returns at once, touching
nothing. Returns the new bridge state, the DOM_RESULT messages posted back,
and the promise settlements performed. -/
def handleMessage (env : BridgeEnv) (iframeWin src : Nat) (data : MsgData)
    (s : BridgeState) : BridgeState × List OutMsg × List Outcome :=
  if src ≠ iframeWin then (s, [], [])
  else
    match data with
    | .sandboxReady => ({ s with ready := true }, [], [])
    | .domQuery selector id =>
        (s, [{ id := id, result := .single (env.querySelector selector) }], [])
    | .domQueryAll selector id =>
        (s, [{ id := id,
               result := .many ((env.querySelectorAll selector).map domBriefOf) }], [])
    | .documentQuery id =>
        (s, [{ id := id, result := .docSnap (buildDocSnapshot env.document) }], [])
    | .customQuery queryPath id =>
        (s, [{ id := id,
               result := .pathVal (customQueryResult env.window queryPath) }], [])
    | .executionResult id r =>
        if s.pendingExecutions.contains id then
          ({ s with pendingExecutions := s.pendingExecutions.erase id }, [],
           [.resolved id r])
        else (s, [], [])
    | .executionError id m =>
        if s.pendingExecutions.contains id then
          ({ s with pendingExecutions := s.pendingExecutions.erase id }, [],
           [.rejected id m])
        else (s, [], [])
    | .otherMsg => (s, [], [])

/-- Deliver a sequence of (source, data) messages to the listener,
accumulating the promise settlements in delivery order. -/
def runMessages (env : BridgeEnv) (iframeWin : Nat) :
    List (Nat × MsgData) → BridgeState → BridgeState × List Outcome
  | [], s => (s, [])
  | (src, m) :: rest, s =>
      let r := handleMessage env iframeWin src m s
      let next := runMessages env iframeWin rest r.1
      (next.1, r.2.2 ++ next.2)

/-- The 30-second execution timeout set by execute(). -/
def executionTimeoutMs : Nat := 30000

/-- The timer callback `setTimeout(..., 30000)` armed by execute() for one
correlation id: if the id is still pending, remove it and reject with the
execution-timeout error; otherwise do nothing. -/
def handleExecTimeout (id : String) (s : BridgeState) : BridgeState × List Outcome :=
  if s.pendingExecutions.contains id then
    ({ s with pendingExecutions := s.pendingExecutions.erase id }, [.rejected id "Execution timeout"])
  else (s, [])

/-- The 50 ms readiness poll interval inside execute()'s wait. -/
def readyCheckIntervalMs : Nat := 50

/-- The 5-second overall bound on execute()'s readiness wait. -/
def readyWaitTimeoutMs : Nat := 5000

/-- Number of 50 ms poll ticks that fit in the 5 s wait. -/
def readyTicks : Nat := readyWaitTimeoutMs / readyCheckIntervalMs

/-- Value of the `this.ready` flag at time t, given the time (if any) at which
the SANDBOX_READY message set it (the flag is set once and never cleared). -/
def flagAt (readyAt : Option Nat) (t : Nat) : Bool :=
  match readyAt with
  | none => false
  | some r => r ≤ t

/-- The readiness wait of execute(): a 50 ms interval re-checks the flag (tick
i + 1 runs at time 50 * (i + 1)) and resolves early when it is set; after the
ticks are spent the 5 s timer resolves the wait, and execute() re-reads the
flag, then at time 5000. The returned Bool is that final read. -/
def waitTickLoop (readyAt : Option Nat) : Nat → Nat → Bool
  | 0, _ => flagAt readyAt readyWaitTimeoutMs
  | Nat.succ fuel, i =>
      if flagAt readyAt (readyCheckIntervalMs * (i + 1)) then true
      else waitTickLoop readyAt fuel (i + 1)

/-- Run the readiness wait from tick 0. -/
def waitForReadyRun (readyAt : Option Nat) : Bool :=
  waitTickLoop readyAt readyTicks 0

/-- The readiness gate at the top of execute(): skip the wait when the flag is
already set, otherwise wait; if the flag is still unset afterwards, throw
the not-ready error. -/
def executeGate (readyNow : Bool) (readyAt : Option Nat) : Except String Unit :=
  let readyAfterWait := if readyNow then readyNow else waitForReadyRun readyAt
  if readyAfterWait then .ok () else .error "Sandbox not ready"

/-- The EXECUTE_CODE message execute() posts into the iframe. -/
structure ExecDispatch where
  code : String
  id : String
deriving Repr, DecidableEq

/-- execute(code) up to returning its promise: pass the readiness gate, post
the EXECUTE_CODE message with the fresh correlation id, record the pending
execution, and arm the 30 s timeout for that id. -/
def executeRun (s : BridgeState) (readyAt : Option Nat) (code : String)
    (id : String) : Except String (BridgeState × ExecDispatch × Nat) :=
  match executeGate s.ready readyAt with
  | .error e => .error e
  | .ok _ =>
      .ok ({ s with pendingExecutions := s.pendingExecutions.concat id },
           { code := code, id := id }, executionTimeoutMs)

/-- An empty document model, for concrete instantiations. -/
def emptyDoc : DocModel :=
  { title := "", url := "", domain := "", pathname := "", readyState := "",
    docElemTagName := "", docElemClassName := "", docElemId := "",
    bodyClassName := "", bodyId := "", bodyInnerHTML := "",
    metaDescription := none, metaKeywords := none, metaViewport := none,
    cookie := "", scriptCount := 0, stylesheetCount := 0, iframeCount := 0 }

/-- A bridge environment over an empty page, for concrete instantiations. -/
def emptyBridgeEnv : BridgeEnv :=
  { querySelector := fun _ => none, querySelectorAll := fun _ => [],
    window := .undefined, document := emptyDoc }

/-- A small concrete window object: `document.title` is a string,
`document.body` has a throwing getter, `document.children.0` is reachable
through a numeric segment, and `gone` is null. -/
def sampleWindow : PageValue :=
  .obj [("document", .ok (.obj
            [("body", .error "boom"),
             ("title", .ok (.prim "t")),
             ("children", .ok (.obj [("0", .ok (.prim "c0"))]))])),
        ("gone", .ok .pvNull)]

/-- Bridge environment whose window is the sample object. -/
def sampleBridgeEnv : BridgeEnv :=
  { emptyBridgeEnv with window := sampleWindow }

/-- A content environment over a page with no matching elements and an idle
sandbox, for concrete instantiations. -/
def noDomEnv : ContentEnv :=
  { querySelector := fun _ => .ok none,
    querySelectorAll := fun _ => .ok [],
    presentAt := fun _ _ => false,
    bridgeExecute := fun _ => .ok .undefined }

/-- A content environment in which every DOM call throws and the sandbox
execution rejects, for concrete instantiations. -/
def throwEnv : ContentEnv :=
  { querySelector := fun _ => .error { message := "SyntaxError", stack := "qs" },
    querySelectorAll := fun _ => .error { message := "SyntaxError", stack := "qs" },
    presentAt := fun _ _ => false,
    bridgeExecute := fun _ => .error { message := "Execution timeout", stack := "exec" } }

/-- A parse function that rejects every slot content, for concrete
instantiations of the malformed-command path. -/
def badParse : String → Except String Command :=
  fun _ => .error "bad"

/-- A parse function accepting exactly the slot content "click", for concrete
instantiations of the well-formed-command path. -/
def sampleParse : String → Except String Command :=
  fun enc => if enc == "click" then .ok { action := .click } else .error "bad"

/-- Modelled from the spec: the Isolated Executor (the sandbox page loaded
into the iframe) is not under src/; per the spec it evaluates the dispatched
code string and reports the completion value through an executionResult
message, which execute() resolves with. Evaluating the spec's example code
"return 1+1" completes with the value 2; other code strings are given an
undefined completion here. -/
def executorEval (code : String) : Except JsErr JsValue :=
  if code == "return 1+1" then .ok (.num 2) else .ok .undefined

/-- A content environment whose sandbox execution is served by the reachable
modelled executor. -/
def reachableEnv : ContentEnv :=
  { querySelector := fun _ => .ok none,
    querySelectorAll := fun _ => .ok [],
    presentAt := fun _ _ => false,
    bridgeExecute := executorEval }

/-- The spec's example custom command. -/
def customExampleCmd : Command :=
  { action := .custom, code := "return 1+1" }

theorem flagAt_mono (readyAt : Option Nat) (a b : Nat) (hab : a ≤ b)
    (h : flagAt readyAt a = true) : flagAt readyAt b = true := by
  cases readyAt with
  | none => simp [flagAt] at h
  | some r =>
      simp only [flagAt, decide_eq_true_eq] at h ⊢
      omega

theorem waitTickLoop_eq (readyAt : Option Nat) :
    ∀ fuel i, fuel + i = readyTicks →
      waitTickLoop readyAt fuel i = flagAt readyAt readyWaitTimeoutMs := by
  intro fuel
  induction fuel with
  | zero => intro i _; rfl
  | succ f ih =>
      intro i hfi
      by_cases hc : flagAt readyAt (readyCheckIntervalMs * (i + 1)) = true
      · have hle : readyCheckIntervalMs * (i + 1) ≤ readyWaitTimeoutMs := by
          have : i + 1 ≤ readyTicks := by omega
          simp only [readyCheckIntervalMs, readyWaitTimeoutMs, readyTicks] at this ⊢
          omega
        have hfin := flagAt_mono readyAt _ _ hle hc
        simp [waitTickLoop, hc, hfin]
      · have hc' : flagAt readyAt (readyCheckIntervalMs * (i + 1)) = false := by
          revert hc
          cases flagAt readyAt (readyCheckIntervalMs * (i + 1)) <;> simp
        rw [waitTickLoop, hc']
        simp only [Bool.false_eq_true, if_false]
        exact ih (i + 1) (by omega)

theorem waitForReadyRun_eq (readyAt : Option Nat) :
    waitForReadyRun readyAt = flagAt readyAt readyWaitTimeoutMs :=
  waitTickLoop_eq readyAt readyTicks 0 rfl

theorem handleMessage_execResult_pending (env : BridgeEnv) (w : Nat) (id : String)
    (r : JsValue) (s : BridgeState) (h : id ∈ s.pendingExecutions) :
    handleMessage env w w (.executionResult id r) s
      = ({ s with pendingExecutions := s.pendingExecutions.erase id }, [],
         [.resolved id r]) := by
  have hc : s.pendingExecutions.contains id = true := List.elem_iff.mpr h
  simp only [handleMessage, hc]
  simp [h]

theorem handleMessage_execResult_absent (env : BridgeEnv) (w : Nat) (id : String)
    (r : JsValue) (s : BridgeState) (h : id ∉ s.pendingExecutions) :
    handleMessage env w w (.executionResult id r) s = (s, [], []) := by
  simp [handleMessage, h]

theorem handleMessage_execError_absent (env : BridgeEnv) (w : Nat) (id : String)
    (m : String) (s : BridgeState) (h : id ∉ s.pendingExecutions) :
    handleMessage env w w (.executionError id m) s = (s, [], []) := by
  simp [handleMessage, h]

/-- C5 (confirmed): every inbound message whose source window is not the
sandbox iframe is ignored outright: the listener performs no state change
(readiness flag, pending-execution table), posts no response and settles no
promise, and this holds for every message type. -/
theorem handleMessage_foreign_source_ignored (env : BridgeEnv)
    (iframeWin src : Nat) (data : MsgData) (s : BridgeState)
    (h : src ≠ iframeWin) :
    handleMessage env iframeWin src data s = (s, [], []) := by
  simp [handleMessage, h]

theorem handleMessage_foreign_source_ignored_witness :
    handleMessage emptyBridgeEnv 0 1 (.executionResult "a" (.num 2))
        { ready := false, pendingExecutions := ["a"] }
      = ({ ready := false, pendingExecutions := ["a"] }, [], []) :=
  handleMessage_foreign_source_ignored emptyBridgeEnv 0 1
    (.executionResult "a" (.num 2))
    { ready := false, pendingExecutions := ["a"] } (by decide)

/-- C10 (confirmed): a click command whose selector matches no element still
returns the success Result: the missing element is skipped by the optional
chain and no Element-not-found error is produced for the click action. -/
theorem click_missing_element_success (env : ContentEnv) (cmd : Command)
    (ha : cmd.action = .click) (h : env.querySelector cmd.selector = .ok none) :
    executeCommand env cmd = .success := by
  simp [executeCommand, executeCommandBody, ha, h]

theorem click_missing_element_success_witness :
    executeCommand noDomEnv { action := .click, selector := "#missing" } = .success :=
  click_missing_element_success noDomEnv { action := .click, selector := "#missing" }
    rfl rfl

/-- C1 is false as stated: a command whose slot content does not parse is
never cleared — JSON.parse runs before the cookie-clearing line, and the
catch block does not clear — so the slot is not empty after the poll that
read it, and the next poll picks the very same command up again and writes
the parse-error result once more. -/
theorem checkForCommands_malformed_cex :
    (checkForCommands (fun _ => .error "Unexpected token") (fun _ => .success)
        { cmdSlot := some "notjson", resultSlot := none, statusSlot := none }).cmdSlot
      = some "notjson" ∧
    (checkForCommands (fun _ => .error "Unexpected token") (fun _ => .success)
        (checkForCommands (fun _ => .error "Unexpected token") (fun _ => .success)
          { cmdSlot := some "notjson", resultSlot := none, statusSlot := none })).resultSlot
      = some (.parseErr "Unexpected token") :=
  ⟨rfl, rfl⟩

/-- C1 (corrected): for every command whose slot content parses successfully,
the command slot is cleared before execution begins — the state in which the
handler runs has an empty slot and status processing — and the slot is still
empty after the result is written with status done, so no later poll can pick
the same command up again; commands that fail to parse are the exception
recorded in the counterexample. -/
theorem checkForCommands_clears_slot_before_exec
    (parse : String → Except String Command) (exec : Command → CmdResult)
    (s : ChannelState) (enc : String) (cmd : Command)
    (hslot : s.cmdSlot = some enc) (hparse : parse enc = .ok cmd) :
    (checkRead parse s).1.cmdSlot = none ∧
    (checkRead parse s).2 = some cmd ∧
    (checkRead parse s).1.statusSlot = some .processing ∧
    checkForCommands parse exec s = checkFinish exec cmd (checkRead parse s).1 ∧
    (checkForCommands parse exec s).cmdSlot = none ∧
    (checkForCommands parse exec s).resultSlot = some (exec cmd) ∧
    (checkForCommands parse exec s).statusSlot = some .done := by
  simp [checkForCommands, checkRead, checkFinish, hslot, hparse]

theorem checkForCommands_clears_slot_before_exec_witness :
    (checkRead sampleParse
        { cmdSlot := some "click", resultSlot := none, statusSlot := none }).1.cmdSlot
      = none ∧
    (checkForCommands sampleParse (fun _ => .success)
        { cmdSlot := some "click", resultSlot := none, statusSlot := none }).statusSlot
      = some .done := by
  have h := checkForCommands_clears_slot_before_exec sampleParse (fun _ => .success)
    { cmdSlot := some "click", resultSlot := none, statusSlot := none }
    "click" { action := .click } rfl rfl
  exact ⟨h.1, h.2.2.2.2.2.2⟩

/-- C2 (confirmed): the execution timeout armed by execute() is the fixed
30-second bound; when it fires for a still-pending call it rejects that call
with the execution-timeout error and removes its PendingExecution record at
that same moment, so an executionResult or executionError message arriving
later with the same correlation ID changes no state and settles nothing. -/
theorem execute_timeout_removes_pending (s : BridgeState) (id : String)
    (hmem : id ∈ s.pendingExecutions) (hnd : s.pendingExecutions.Nodup) :
    executionTimeoutMs = 30000 ∧
    handleExecTimeout id s =
      ({ s with pendingExecutions := s.pendingExecutions.erase id },
       [.rejected id "Execution timeout"]) ∧
    id ∉ (handleExecTimeout id s).1.pendingExecutions ∧
    (handleExecTimeout id s).1.ready = s.ready ∧
    (∀ env iframeWin r,
        handleMessage env iframeWin iframeWin (.executionResult id r)
          (handleExecTimeout id s).1 = ((handleExecTimeout id s).1, [], [])) ∧
    (∀ env iframeWin m,
        handleMessage env iframeWin iframeWin (.executionError id m)
          (handleExecTimeout id s).1 = ((handleExecTimeout id s).1, [], [])) := by
  have hto : handleExecTimeout id s =
      ({ s with pendingExecutions := s.pendingExecutions.erase id },
       [.rejected id "Execution timeout"]) := by
    simp [handleExecTimeout, hmem]
  have hout : id ∉ (handleExecTimeout id s).1.pendingExecutions := by
    rw [hto]
    exact List.Nodup.not_mem_erase hnd
  refine ⟨rfl, hto, hout, by rw [hto], ?_, ?_⟩
  · intro env iframeWin r
    exact handleMessage_execResult_absent env iframeWin id r _ hout
  · intro env iframeWin m
    exact handleMessage_execError_absent env iframeWin id m _ hout

theorem execute_timeout_removes_pending_witness :
    executionTimeoutMs = 30000 ∧
    (handleExecTimeout "a" { ready := true, pendingExecutions := ["a"] }).2
      = [.rejected "a" "Execution timeout"] ∧
    handleMessage emptyBridgeEnv 0 0 (.executionResult "a" (.num 1))
        (handleExecTimeout "a" { ready := true, pendingExecutions := ["a"] }).1
      = ((handleExecTimeout "a" { ready := true, pendingExecutions := ["a"] }).1, [], []) := by
  have h := execute_timeout_removes_pending
    { ready := true, pendingExecutions := ["a"] } "a" (by decide) (by decide)
  exact ⟨h.1, by rw [h.2.1], h.2.2.2.2.1 emptyBridgeEnv 0 (.num 1)⟩

/-- C3 (confirmed): two pending execute() calls with distinct correlation IDs
are settled purely by ID: delivering their two responses in either order
settles each call with exactly the response carrying its own ID, and the
pairing of results to calls is the same in both orders. -/
theorem concurrent_executions_pair_by_id (env : BridgeEnv) (w : Nat)
    (s : BridgeState) (id1 id2 : String) (r1 r2 : JsValue)
    (hne : id1 ≠ id2) (h1 : id1 ∈ s.pendingExecutions)
    (h2 : id2 ∈ s.pendingExecutions) :
    (runMessages env w
        [(w, .executionResult id2 r2), (w, .executionResult id1 r1)] s).2
      = [.resolved id2 r2, .resolved id1 r1] ∧
    (runMessages env w
        [(w, .executionResult id1 r1), (w, .executionResult id2 r2)] s).2
      = [.resolved id1 r1, .resolved id2 r2] := by
  constructor
  · rw [runMessages, handleMessage_execResult_pending env w id2 r2 s h2]
    have h1e : id1 ∈ s.pendingExecutions.erase id2 :=
      (List.mem_erase_of_ne hne).mpr h1
    rw [runMessages, handleMessage_execResult_pending env w id1 r1 _ h1e]
    rfl
  · rw [runMessages, handleMessage_execResult_pending env w id1 r1 s h1]
    have h2e : id2 ∈ s.pendingExecutions.erase id1 :=
      (List.mem_erase_of_ne (Ne.symm hne)).mpr h2
    rw [runMessages, handleMessage_execResult_pending env w id2 r2 _ h2e]
    rfl

theorem concurrent_executions_pair_by_id_witness :
    (runMessages emptyBridgeEnv 0
        [(0, .executionResult "b" (.num 2)), (0, .executionResult "a" (.num 1))]
        { ready := true, pendingExecutions := ["a", "b"] }).2
      = [.resolved "b" (.num 2), .resolved "a" (.num 1)] :=
  (concurrent_executions_pair_by_id emptyBridgeEnv 0
    { ready := true, pendingExecutions := ["a", "b"] } "a" "b" (.num 1) (.num 2)
    (by decide) (by decide) (by decide)).1

/-- C4 (confirmed): an execute() call issued while the readiness flag is
false polls the flag at the 50 ms interval for at most the 5-second bound: if
the flag is set within the bound the gate passes and the call proceeds to
dispatch (posting EXECUTE_CODE, recording the pending id and arming the 30 s
timer), and if the flag is still unset after the bound the call fails with
the Sandbox-not-ready error instead of hanging. -/
theorem execute_readiness_gate :
    readyCheckIntervalMs = 50 ∧ readyWaitTimeoutMs = 5000 ∧
    (∀ t : Nat, t ≤ readyWaitTimeoutMs → executeGate false (some t) = .ok ()) ∧
    (∀ t : Nat, readyWaitTimeoutMs < t →
        executeGate false (some t) = .error "Sandbox not ready") ∧
    executeGate false none = .error "Sandbox not ready" ∧
    (∀ s readyAt code id, executeGate s.ready readyAt = .ok () →
        executeRun s readyAt code id =
          .ok ({ s with pendingExecutions := s.pendingExecutions.concat id },
               { code := code, id := id }, executionTimeoutMs)) := by
  refine ⟨rfl, rfl, ?_, ?_, ?_, ?_⟩
  · intro t ht
    have hf : flagAt (some t) readyWaitTimeoutMs = true := by
      simp [flagAt, ht]
    simp [executeGate, waitForReadyRun_eq, hf]
  · intro t ht
    have hf : flagAt (some t) readyWaitTimeoutMs = false := by
      simp [flagAt]
      omega
    simp [executeGate, waitForReadyRun_eq, hf]
  · simp [executeGate, waitForReadyRun_eq, flagAt]
  · intro s readyAt code id h
    simp [executeRun, h]

theorem execute_readiness_gate_witness :
    executeGate false (some 70) = .ok () ∧
    executeGate false (some 6000) = .error "Sandbox not ready" ∧
    executeRun { ready := true, pendingExecutions := [] } none "1+1" "exec_1"
      = .ok ({ ready := true, pendingExecutions := ["exec_1"] },
             { code := "1+1", id := "exec_1" }, 30000) := by
  refine ⟨execute_readiness_gate.2.2.1 70 (by decide),
          execute_readiness_gate.2.2.2.1 6000 (by decide), ?_⟩
  have h := execute_readiness_gate.2.2.2.2.2
    { ready := true, pendingExecutions := [] } none "1+1" "exec_1" rfl
  simpa using h

theorem waitGo_success_iff (present : Nat → Bool) :
    ∀ fuel i, waitGo present fuel i = .success ↔
      ∃ j, j < fuel ∧ present (i + j) = true := by
  intro fuel
  induction fuel with
  | zero => intro i; simp [waitGo]
  | succ f ih =>
      intro i
      by_cases h : present i = true
      · constructor
        · intro _
          exact ⟨0, Nat.succ_pos f, by simpa using h⟩
        · intro _
          simp [waitGo, h]
      · have h0 : present i = false := by
          revert h; cases present i <;> simp
        simp only [waitGo, h0, Bool.false_eq_true, if_false]
        rw [ih (i + 1)]
        constructor
        · rintro ⟨j, hj, hp⟩
          refine ⟨j + 1, by omega, ?_⟩
          rw [show i + (j + 1) = i + 1 + j by omega]
          exact hp
        · rintro ⟨j, hj, hp⟩
          cases j with
          | zero =>
              rw [Nat.add_zero] at hp
              rw [hp] at h0
              exact absurd h0 (by simp)
          | succ j0 =>
              refine ⟨j0, by omega, ?_⟩
              rw [show i + 1 + j0 = i + (j0 + 1) by omega]
              exact hp

theorem waitGo_timeout_or (present : Nat → Bool) :
    ∀ fuel i, waitGo present fuel i = .success ∨
      waitGo present fuel i = .failure "Timeout" := by
  intro fuel
  induction fuel with
  | zero => intro i; right; rfl
  | succ f ih =>
      intro i
      by_cases h : present i = true
      · left; simp [waitGo, h]
      · have h0 : present i = false := by
          revert h; cases present i <;> simp
        rw [waitGo, h0]
        simpa using ih (i + 1)

/-- C6 (confirmed): a waitForElement command with timeout T runs the 100 ms
poll loop for exactly the number of attempts given by the loop guard
i < T / 100, which is the ceiling of T / 100 for positive T; it returns the
success Result as soon as the element exists at some attempt within that
bound, the Timeout failure if it never does, and for T zero or negative it
makes zero attempts and fails with Timeout immediately. -/
theorem waitForElement_poll_spec :
    elementPollIntervalMs = 100 ∧
    (∀ t : Int, 0 < t → waitAttempts t = (t.toNat + 99) / 100) ∧
    (∀ (t : Int) (i : Nat), (100 * (i : Int) < t) ↔ i < waitAttempts t) ∧
    (∀ (present : Nat → Bool) (t : Int),
        (∃ j, j < waitAttempts t ∧ present j = true) →
        waitForElementRun present t = .success) ∧
    (∀ (present : Nat → Bool) (t : Int),
        (∀ j, j < waitAttempts t → present j = false) →
        waitForElementRun present t = .failure "Timeout") ∧
    (∀ (present : Nat → Bool) (t : Int), t ≤ 0 →
        waitAttempts t = 0 ∧ waitForElementRun present t = .failure "Timeout") ∧
    (∀ env cmd, cmd.action = .waitForElement →
        executeCommand env cmd =
          waitForElementRun (fun i => env.presentAt i cmd.selector) cmd.timeout) := by
  refine ⟨rfl, ?_, ?_, ?_, ?_, ?_, ?_⟩
  · intro t ht
    unfold waitAttempts
    rw [if_neg (by omega)]
  · intro t i
    unfold waitAttempts
    by_cases h : t ≤ 0
    · rw [if_pos h]; omega
    · rw [if_neg h]; omega
  · intro present t h
    obtain ⟨j, hj, hp⟩ := h
    exact (waitGo_success_iff present (waitAttempts t) 0).mpr
      ⟨j, hj, by simpa using hp⟩
  · intro present t hall
    rcases waitGo_timeout_or present (waitAttempts t) 0 with hs | hf
    · exfalso
      obtain ⟨j, hj, hp⟩ := (waitGo_success_iff present (waitAttempts t) 0).mp hs
      rw [Nat.zero_add] at hp
      rw [hall j hj] at hp
      exact absurd hp (by simp)
    · exact hf
  · intro present t ht
    have h0 : waitAttempts t = 0 := by simp [waitAttempts, ht]
    exact ⟨h0, by simp [waitForElementRun, h0, waitGo]⟩
  · intro env cmd ha
    simp [executeCommand, executeCommandBody, ha, pure, Except.pure]

theorem waitForElement_poll_spec_witness :
    waitAttempts 250 = 3 ∧
    waitForElementRun (fun j => j == 2) 250 = .success ∧
    waitForElementRun (fun _ => false) 250 = .failure "Timeout" ∧
    waitForElementRun (fun _ => true) 0 = .failure "Timeout" ∧
    executeCommand noDomEnv
        { action := .waitForElement, selector := "#x", timeout := 250 }
      = .failure "Timeout" := by
  refine ⟨by decide,
          waitForElement_poll_spec.2.2.2.1 (fun j => j == 2) 250
            ⟨2, by decide, by decide⟩,
          waitForElement_poll_spec.2.2.2.2.1 (fun _ => false) 250 (fun _ _ => rfl),
          (waitForElement_poll_spec.2.2.2.2.2.1 (fun _ => true) 0 (by decide)).2,
          ?_⟩
  rw [waitForElement_poll_spec.2.2.2.2.2.2 noDomEnv
      { action := .waitForElement, selector := "#x", timeout := 250 } rfl]
  exact waitForElement_poll_spec.2.2.2.2.1 _ 250 (fun _ _ => rfl)

/-- C7 (confirmed): the polling channel itself never throws: a command whose
handler raises is answered by the outer catch with the error-and-stack
Result; a custom command whose sandboxed execution rejects is answered the
same way by the inner catch; a slot content that fails to parse is answered
by the parse-error Result with status error; and every poll that finds a
command ends with a terminal status, done or error. -/
theorem channel_catches_all (env : ContentEnv) (cmd : Command)
    (parse : String → Except String Command) (s : ChannelState) :
    (∀ e, executeCommandBody env cmd = .error e →
        executeCommand env cmd = .errObj e.message e.stack) ∧
    (∀ e, cmd.action = .custom → env.bridgeExecute cmd.code = .error e →
        executeCommand env cmd = .errObj e.message e.stack) ∧
    (∀ enc m, s.cmdSlot = some enc → parse enc = .error m →
        (checkForCommands parse (executeCommand env) s).resultSlot
          = some (.parseErr m) ∧
        (checkForCommands parse (executeCommand env) s).statusSlot
          = some .error) ∧
    (∀ enc, s.cmdSlot = some enc →
        (checkForCommands parse (executeCommand env) s).statusSlot = some .done ∨
        (checkForCommands parse (executeCommand env) s).statusSlot = some .error) := by
  refine ⟨?_, ?_, ?_, ?_⟩
  · intro e he
    simp [executeCommand, he]
  · intro e ha hb
    simp [executeCommand, executeCommandBody, ha, hb, pure, Except.pure]
  · intro enc m hs hp
    simp [checkForCommands, checkRead, hs, hp]
  · intro enc hs
    cases hp : parse enc with
    | ok cmd2 =>
        left
        simp [checkForCommands, checkRead, checkFinish, hs, hp]
    | error m =>
        right
        simp [checkForCommands, checkRead, hs, hp]

theorem channel_catches_all_witness :
    executeCommand throwEnv { action := .click } = .errObj "SyntaxError" "qs" ∧
    executeCommand throwEnv { action := .custom }
      = .errObj "Execution timeout" "exec" ∧
    (checkForCommands badParse (executeCommand throwEnv)
        { cmdSlot := some "x", resultSlot := none, statusSlot := none }).statusSlot
      = some .error := by
  have h1 := channel_catches_all throwEnv { action := .click } badParse
    { cmdSlot := some "x", resultSlot := none, statusSlot := none }
  have h2 := channel_catches_all throwEnv { action := .custom } badParse
    { cmdSlot := some "x", resultSlot := none, statusSlot := none }
  exact ⟨h1.1 { message := "SyntaxError", stack := "qs" } rfl,
         h2.2.1 { message := "Execution timeout", stack := "exec" } rfl rfl,
         (h1.2.2.1 "x" "bad" rfl rfl).2⟩

/-- C8 (confirmed): a customQuery(path, id) message from the iframe resolves
the dotted path from the global window object — all-digit segments being read
as numeric indices in canonical decimal form — with the traversal stopping
and yielding the null or undefined intermediate the moment one is met, a
thrown property read caught and answered as the structured error object, and
in every case exactly one DOM_RESULT response tagged with the same id posted
back, with no bridge state change. -/
theorem customQuery_path_traversal (env : BridgeEnv) (w : Nat)
    (s : BridgeState) (queryPath id : String) :
    handleMessage env w w (.customQuery queryPath id) s
      = (s, [{ id := id,
               result := .pathVal (customQueryResult env.window queryPath) }], []) ∧
    (∀ part n, parseDigits part = some n → canonKey part = toString n) ∧
    (∀ (v : PageValue) (p : String) (rest : List String),
        isNullOrUndef v = true → resolvePath v (p :: rest) = .ok v) ∧
    (∀ e, resolvePath env.window (splitDots queryPath) = .error e →
        customQueryResult env.window queryPath
          = .obj [("error", .ok (.prim e))]) ∧
    (∀ v, resolvePath env.window (splitDots queryPath) = .ok v →
        customQueryResult env.window queryPath = v) := by
  refine ⟨?_, ?_, ?_, ?_, ?_⟩
  · simp [handleMessage]
  · intro part n h
    simp [canonKey, h]
  · intro v p rest h
    simp [resolvePath, h]
  · intro e h
    simp [customQueryResult, h]
  · intro v h
    simp [customQueryResult, h]

theorem customQuery_path_traversal_witness :
    handleMessage sampleBridgeEnv 0 0 (.customQuery "document.body" "q1")
        { ready := true, pendingExecutions := [] }
      = ({ ready := true, pendingExecutions := [] },
         [{ id := "q1",
            result := .pathVal (.obj [("error", .ok (.prim "boom"))]) }], []) ∧
    canonKey "007" = "7" ∧
    resolvePath PageValue.pvNull ["x"] = .ok PageValue.pvNull := by
  have h := customQuery_path_traversal sampleBridgeEnv 0
    { ready := true, pendingExecutions := [] } "document.body" "q1"
  refine ⟨?_, h.2.1 "007" 7 rfl, h.2.2.1 PageValue.pvNull "x" [] rfl⟩
  rw [h.1, h.2.2.2.1 "boom" rfl]

/-- C9 as stated is false: with the executor reachable and evaluating the
example code to 2, the custom handler writes the executor's value itself as
the Result — `sandboxResult || \x7bsuccess: true\x7d` keeps any truthy value bare —
so the Result is the raw value 2 and not a success-flagged object. -/
theorem custom_example_not_wrapped_cex :
    executeCommand reachableEnv customExampleCmd = .raw (.num 2) ∧
    executeCommand reachableEnv customExampleCmd ≠ .success :=
  ⟨rfl, by decide⟩

/-- C9 (corrected): a custom command dispatched while the executor is
reachable yields the executor's return value itself as the Result when that
value is truthy (so "return 1+1" yields the bare value 2); the success-only
Result is substituted exactly when the executor's value is falsy; and when
the executor is unreachable (the execute promise rejects) the Result carries
the error and stack fields. -/
theorem custom_returns_executor_value (env : ContentEnv) (cmd : Command)
    (ha : cmd.action = .custom) :
    (∀ v, env.bridgeExecute cmd.code = .ok v → jsTruthy v = true →
        executeCommand env cmd = .raw v) ∧
    (∀ v, env.bridgeExecute cmd.code = .ok v → jsTruthy v = false →
        executeCommand env cmd = .success) ∧
    (∀ e, env.bridgeExecute cmd.code = .error e →
        executeCommand env cmd = .errObj e.message e.stack) := by
  refine ⟨?_, ?_, ?_⟩
  · intro v hv ht
    simp [executeCommand, executeCommandBody, ha, hv, ht, pure, Except.pure]
  · intro v hv ht
    simp [executeCommand, executeCommandBody, ha, hv, ht, pure, Except.pure]
  · intro e he
    simp [executeCommand, executeCommandBody, ha, he, pure, Except.pure]

theorem custom_returns_executor_value_witness :
    executeCommand reachableEnv customExampleCmd = .raw (.num 2) :=
  (custom_returns_executor_value reachableEnv customExampleCmd rfl).1
    (.num 2) rfl rfl
